import Mathlib

set_option maxHeartbeats 1000000

/-!
Shallow embedding of the fault-injection page of the B4-Lab frontend
(`InjectPage` component, current revision) together with theorems about
the topology cascade resolution, the fault-config set operations, the
batch submission payload construction, the response display logic, and
the session-storage initialisation.
-/

namespace B4Lab

/-- A JavaScript value that is either a string or a number, mirroring the
`string | number` union used by the numeric form fields. -/
inductive JVal where
  | str : String → JVal
  | num : Int → JVal
deriving DecidableEq, Repr

/-- JavaScript truthiness for the `string | number` union: the empty string
and the number 0 are falsy, everything else is truthy. -/
def JVal.truthy : JVal → Bool
  | JVal.str s => s != ""
  | JVal.num n => n != 0

/-- The `FaultConfig` record of the page: one fault entry of the batch. -/
structure FaultConfig where
  id : String
  fault_type : String
  target_node : String
  target_interface : String
  target_link : String
  latency_ms : JVal
  jitter_ms : JVal
  correlation_percent : JVal
  bandwidth_rate_kbit : JVal
  bandwidth_burst_bytes : JVal
  bandwidth_latency_ms : JVal
  loop_node1 : String
  loop_node2 : String
  loop_dummy_dest_ip : String
  loop_duration_sec : JVal
  loop_ping_target_ip : String
  loop_ping_count : JVal
deriving DecidableEq, Repr

/-- The `DEFAULT_FAULT_CONFIG` constant, extended with a given fresh id. -/
def defaultFaultConfig (id : String) : FaultConfig :=
  { id := id
    fault_type := "link_down"
    target_node := ""
    target_interface := ""
    target_link := ""
    latency_ms := JVal.num 100
    jitter_ms := JVal.str ""
    correlation_percent := JVal.str ""
    bandwidth_rate_kbit := JVal.num 1000
    bandwidth_burst_bytes := JVal.str ""
    bandwidth_latency_ms := JVal.str "50ms"
    loop_node1 := ""
    loop_node2 := ""
    loop_dummy_dest_ip := "192.168.7.2/32"
    loop_duration_sec := JVal.num 10
    loop_ping_target_ip := "192.168.7.2/32"
    loop_ping_count := JVal.num 5 }

/-- The `TopologyData` record delivered by the discovery endpoint:
containers, links (node pairs) and a record mapping each container to its
interface list (modelled as an association list). -/
structure TopologyData where
  containers : List String
  links : List (String × String)
  interfaces_by_container : List (String × List String)
deriving DecidableEq, Repr

/-- The JavaScript record access `interfacesByContainer[node] || []`. -/
def lookupIfs (m : List (String × List String)) (k : String) : List String :=
  match m.find? (fun p => p.1 == k) with
  | some p => p.2
  | none => []

/-- The expression `containers.length > 0 ? containers[0] : ''`. -/
def firstContainer (t : TopologyData) : String :=
  match t.containers with
  | [] => ""
  | c :: _ => c

/-- The expression
`containers.length > 1 ? containers[1] : (containers.length > 0 ? containers[0] : '')`. -/
def secondContainer (t : TopologyData) : String :=
  match t.containers with
  | [] => ""
  | [c] => c
  | _ :: c :: _ => c

/-- The expression ``links.length > 0 ? `${links[0][0]}|${links[0][1]}` : ''``:
the canonical string of the first link. -/
def firstLinkStr (t : TopologyData) : String :=
  match t.links with
  | [] => ""
  | (a, b) :: _ => a ++ "|" ++ b

/-- The JavaScript idiom `current || fallback` on strings, as used by
`updateOrDefaultNode` and `updateOrDefaultLink`. -/
def updateOrDefault (current fallback : String) : String :=
  if current = "" then fallback else current

/-- The expression `l.length > 0 ? l[0] : ''`. -/
def headOrEmpty (l : List String) : String :=
  match l with
  | [] => ""
  | i :: _ => i

/-- Per-entry re-resolution performed by `setAndStoreTopologyData` on a
successful topology fetch (the body of the `prevConfigs.map` callback). -/
def resolveOnFetch (t : TopologyData) (fc : FaultConfig) : FaultConfig :=
  let newTargetNode := updateOrDefault fc.target_node (firstContainer t)
  let newNodeInterfaces := lookupIfs t.interfaces_by_container newTargetNode
  let newTargetInterface :=
    if 0 < newNodeInterfaces.length ∧
        (fc.target_interface = "" ∨ fc.target_interface ∉ newNodeInterfaces) then
      headOrEmpty newNodeInterfaces
    else if newNodeInterfaces.length = 0 then "" else fc.target_interface
  { fc with
    target_node := newTargetNode
    target_link := updateOrDefault fc.target_link (firstLinkStr t)
    target_interface := newTargetInterface
    loop_node1 := updateOrDefault fc.loop_node1 (firstContainer t)
    loop_node2 := updateOrDefault fc.loop_node2 (secondContainer t) }

/-- Per-entry re-resolution performed by the topology-change `useEffect`
(the body of its `prevConfigs.map` callback). -/
def resolveOnChangeEntry (t : TopologyData) (fc : FaultConfig) : FaultConfig :=
  let newTargetNode := updateOrDefault fc.target_node (firstContainer t)
  let newNodeInterfaces := lookupIfs t.interfaces_by_container newTargetNode
  let newTargetInterface :=
    if 0 < newNodeInterfaces.length ∧
        (fc.target_interface = "" ∨ fc.target_interface ∉ newNodeInterfaces) then
      headOrEmpty newNodeInterfaces
    else if newNodeInterfaces.length = 0 ∧ fc.target_interface ≠ "" then ""
    else fc.target_interface
  { fc with
    target_node := newTargetNode
    target_link := updateOrDefault fc.target_link (firstLinkStr t)
    target_interface := newTargetInterface
    loop_node1 := updateOrDefault fc.loop_node1 newTargetNode
    loop_node2 := updateOrDefault fc.loop_node2 (secondContainer t) }

/-- The fresh default entry seeded from the current topology, as built
identically by `handleAddFaultConfig`, by the re-seed branch of
`handleRemoveFaultConfig`, and by the pristine-entry branch of the
topology-change `useEffect`. -/
def seedEntry (t : TopologyData) (newId : String) : FaultConfig :=
  { defaultFaultConfig newId with
    target_node := firstContainer t
    target_link := firstLinkStr t
    target_interface := headOrEmpty (lookupIfs t.interfaces_by_container (firstContainer t))
    loop_node1 := firstContainer t
    loop_node2 := secondContainer t }

/-- The topology-change `useEffect` over the fault-config list: guarded on a
non-empty topology, with a special branch replacing a single pristine
entry by a seeded default, and otherwise mapping the per-entry resolver. -/
def topologyChangeEffect (t : TopologyData) (configs : List FaultConfig) : List FaultConfig :=
  if 0 < t.containers.length ∨ 0 < t.interfaces_by_container.length ∨ 0 < t.links.length then
    match configs with
    | [fc] =>
      if fc.target_node = "" ∧ fc.target_link = "" ∧ fc.target_interface = "" then
        [seedEntry t fc.id]
      else [resolveOnChangeEntry t fc]
    | _ => configs.map (resolveOnChangeEntry t)
  else configs

/-- `handleAddFaultConfig`: appends a fresh seeded entry. -/
def handleAddFaultConfig (t : TopologyData) (newId : String)
    (configs : List FaultConfig) : List FaultConfig :=
  configs ++ [seedEntry t newId]

/-- `handleRemoveFaultConfig` of the current InjectPage revision: filters
out the entry with the given id and re-seeds exactly one fresh default
entry when the result would be empty. -/
def handleRemoveFaultConfig (t : TopologyData) (newId : String) (idToRemove : String)
    (configs : List FaultConfig) : List FaultConfig :=
  let newConfigs := configs.filter (fun fc => fc.id != idToRemove)
  if newConfigs.length = 0 then [seedEntry t newId] else newConfigs

/-- A field edit as passed to `handleFaultConfigChange(id, field, value)`:
one constructor per editable field, carrying the value type that the
corresponding input handler produces. -/
inductive FieldUpdate where
  | fault_type (v : String)
  | target_node (v : String)
  | target_interface (v : String)
  | target_link (v : String)
  | latency_ms (v : JVal)
  | jitter_ms (v : JVal)
  | correlation_percent (v : JVal)
  | bandwidth_rate_kbit (v : JVal)
  | bandwidth_burst_bytes (v : JVal)
  | bandwidth_latency_ms (v : JVal)
  | loop_node1 (v : String)
  | loop_node2 (v : String)
  | loop_dummy_dest_ip (v : String)
  | loop_duration_sec (v : JVal)
  | loop_ping_target_ip (v : String)
  | loop_ping_count (v : JVal)
deriving DecidableEq, Repr

/-- The spread `{ ...fc, [field]: value }`. -/
def setField (fc : FaultConfig) : FieldUpdate → FaultConfig
  | FieldUpdate.fault_type v => { fc with fault_type := v }
  | FieldUpdate.target_node v => { fc with target_node := v }
  | FieldUpdate.target_interface v => { fc with target_interface := v }
  | FieldUpdate.target_link v => { fc with target_link := v }
  | FieldUpdate.latency_ms v => { fc with latency_ms := v }
  | FieldUpdate.jitter_ms v => { fc with jitter_ms := v }
  | FieldUpdate.correlation_percent v => { fc with correlation_percent := v }
  | FieldUpdate.bandwidth_rate_kbit v => { fc with bandwidth_rate_kbit := v }
  | FieldUpdate.bandwidth_burst_bytes v => { fc with bandwidth_burst_bytes := v }
  | FieldUpdate.bandwidth_latency_ms v => { fc with bandwidth_latency_ms := v }
  | FieldUpdate.loop_node1 v => { fc with loop_node1 := v }
  | FieldUpdate.loop_node2 v => { fc with loop_node2 := v }
  | FieldUpdate.loop_dummy_dest_ip v => { fc with loop_dummy_dest_ip := v }
  | FieldUpdate.loop_duration_sec v => { fc with loop_duration_sec := v }
  | FieldUpdate.loop_ping_target_ip v => { fc with loop_ping_target_ip := v }
  | FieldUpdate.loop_ping_count v => { fc with loop_ping_count := v }

/-- `handleFaultConfigChange` applied to the matching entry: applies the
edit, and when the edited field is `target_node` and the entry kind is not
`routing_loop_timed`, overwrites `target_interface` with the first
interface of the newly selected node (or the empty string). -/
def handleFaultConfigChange (interfacesByContainer : List (String × List String))
    (u : FieldUpdate) (fc : FaultConfig) : FaultConfig :=
  let updatedFc := setField fc u
  match u with
  | FieldUpdate.target_node v =>
    if fc.fault_type ≠ "routing_loop_timed" then
      { updatedFc with target_interface := headOrEmpty (lookupIfs interfacesByContainer v) }
    else updatedFc
  | _ => updatedFc

/-- A value in a wire payload field: a string copied verbatim, a value run
through the JavaScript `Number(...)` conversion, or through `String(...)`. -/
inductive WireVal where
  | raw : String → WireVal
  | numberOf : JVal → WireVal
  | stringOf : JVal → WireVal
deriving DecidableEq, Repr

/-- Whether the first character list starts with the second one. -/
def startsWithChars : List Char → List Char → Bool
  | _, [] => true
  | [], _ :: _ => false
  | c :: cs, d :: ds => c == d && startsWithChars cs ds

/-- Whether the second character list occurs inside the first one. -/
def hasSubChars (sub : List Char) : List Char → Bool
  | [] => sub.isEmpty
  | c :: cs => startsWithChars (c :: cs) sub || hasSubChars sub cs

/-- The JavaScript `s.includes(sub)` substring test. -/
def jsIncludes (s sub : String) : Bool :=
  hasSubChars sub.data s.data

/-- The single-entry payload construction in `handleSubmitAllFaults`
(the body of the `faultConfigs.map` callback building one wire object,
modelled as an ordered list of field-name / value pairs). -/
def buildSinglePayload (fc : FaultConfig) : List (String × WireVal) :=
  [("fault_type", WireVal.raw fc.fault_type)]
    ++ (if fc.target_node ≠ "" then [("target_node", WireVal.raw fc.target_node)] else [])
    ++ (if fc.target_interface ≠ "" then
          [("target_interface", WireVal.raw fc.target_interface)]
        else [])
    ++ (if jsIncludes fc.fault_type "link_" then
          [("target_link", WireVal.raw fc.target_link)]
        else if fc.fault_type = "add_latency" then
          [("latency_ms", WireVal.numberOf fc.latency_ms)]
            ++ (if fc.jitter_ms.truthy then [("jitter_ms", WireVal.numberOf fc.jitter_ms)] else [])
            ++ (if fc.correlation_percent.truthy then
                  [("correlation_percent", WireVal.numberOf fc.correlation_percent)]
                else [])
        else if fc.fault_type = "limit_bandwidth" then
          [("bandwidth_rate_kbit", WireVal.numberOf fc.bandwidth_rate_kbit)]
            ++ (if fc.bandwidth_burst_bytes.truthy then
                  [("bandwidth_burst_bytes", WireVal.stringOf fc.bandwidth_burst_bytes)]
                else [])
            ++ (if fc.bandwidth_latency_ms.truthy then
                  [("bandwidth_latency_ms", WireVal.stringOf fc.bandwidth_latency_ms)]
                else [])
        else if fc.fault_type = "routing_loop_timed" then
          [("loop_node1", WireVal.raw fc.loop_node1),
            ("loop_node2", WireVal.raw fc.loop_node2),
            ("loop_dummy_dest_ip", WireVal.raw fc.loop_dummy_dest_ip),
            ("loop_duration_sec", WireVal.numberOf fc.loop_duration_sec)]
            ++ (if fc.loop_ping_target_ip ≠ "" then
                  [("loop_ping_target_ip", WireVal.raw fc.loop_ping_target_ip)]
                else [])
            ++ (if fc.loop_ping_count.truthy then
                  [("loop_ping_count", WireVal.numberOf fc.loop_ping_count)]
                else [])
        else [])

/-- The ordered batch `payloadsToSubmit = faultConfigs.map(fc => ...)`. -/
def payloadsToSubmit (configs : List FaultConfig) : List (List (String × WireVal)) :=
  configs.map buildSinglePayload

/-- The field names present in the wire payload of one entry. -/
def payloadKeys (fc : FaultConfig) : List String :=
  (buildSinglePayload fc).map Prod.fst

/-- One per-item result in the submission response. -/
structure DetailedMessage where
  fault_type : String
  status : String
  message : String
  target_display : String
deriving DecidableEq, Repr

/-- The submission response body: overall message and status plus the
optional per-item `details` array. -/
structure SubmitResponse where
  message : String
  status : String
  details : Option (List DetailedMessage)
deriving DecidableEq, Repr

/-- The per-item results kept in state: `response.data.details || []`. -/
def displayedResults (r : SubmitResponse) : List DetailedMessage :=
  r.details.getD []

/-- The text of one rendered result row:
``{res.fault_type} ({res.target_display || 'N/A'}): {res.status.toUpperCase()} - {res.message}``. -/
def renderRow (res : DetailedMessage) : String :=
  res.fault_type ++ " (" ++ (if res.target_display = "" then "N/A" else res.target_display)
    ++ "): " ++ res.status.toUpper ++ " - " ++ res.message

/-- The rendered result rows: one row per element of `detailedResults`. -/
def displayedRows (r : SubmitResponse) : List String :=
  (displayedResults r).map renderRow

/-- `getInitialState(keySuffix, defaultValue)`: reads the session-storage
value (absent modelled as `none`), parses it with a parser that yields
`none` on malformed input (the thrown-and-caught `JSON.parse` failure),
and falls back to the supplied default in every failure case. -/
def getInitialState {T : Type} (stored : Option String) (parse : String → Option T)
    (defaultValue : T) : T :=
  match stored with
  | some s => if s ≠ "" then (parse s).getD defaultValue else defaultValue
  | none => defaultValue

/-- The component state relevant to the topology cache: the three in-memory
topology pieces, their persisted session-storage copies, and the
fault-config list. -/
structure PageState where
  containers : List String
  links : List (String × String)
  interfacesByContainer : List (String × List String)
  storedContainers : Option (List String)
  storedLinks : Option (List (String × String))
  storedInterfaces : Option (List (String × List String))
  faultConfigs : List FaultConfig
deriving DecidableEq, Repr

/-- `setAndStoreTopologyData`: on data, replaces the snapshot wholesale,
persists all three pieces and re-resolves every entry; on `null`, clears
the in-memory snapshot and removes all three persisted copies, leaving the
fault-config list untouched. -/
def setAndStoreTopologyData (data : Option TopologyData) (st : PageState) : PageState :=
  match data with
  | some d =>
    { containers := d.containers
      links := d.links
      interfacesByContainer := d.interfaces_by_container
      storedContainers := some d.containers
      storedLinks := some d.links
      storedInterfaces := some d.interfaces_by_container
      faultConfigs := st.faultConfigs.map (resolveOnFetch d) }
  | none =>
    { st with
      containers := []
      links := []
      interfacesByContainer := []
      storedContainers := none
      storedLinks := none
      storedInterfaces := none }

/-- The failure branch of `fetchTopology`: `setAndStoreTopologyData(null)`
followed by the topology-change `useEffect` firing on the now-empty
topology. -/
def fetchTopologyFailure (st : PageState) : PageState :=
  let st1 := setAndStoreTopologyData none st
  { st1 with
    faultConfigs :=
      topologyChangeEffect
        ⟨st1.containers, st1.links, st1.interfacesByContainer⟩ st1.faultConfigs }

/-- A topology with a single node and no links or interfaces. -/
def topoR1 : TopologyData := ⟨["r1"], [], []⟩

/-- An entry whose target node and link no longer exist in `topoR1`. -/
def fcStaleNode : FaultConfig :=
  { defaultFaultConfig "c1" with target_node := "r2", target_link := "x|y" }

/-- A topology whose first link lists node `b` before node `a`, while the
discovery order of the nodes is `a` before `b`. -/
def topoAB : TopologyData := ⟨["a", "b"], [("b", "a")], []⟩

/-- A `link_down` entry with an unset target node and a selected link whose
first endpoint is `b`. -/
def fcLinkUnsetNode : FaultConfig :=
  { defaultFaultConfig "c7" with fault_type := "link_down", target_link := "b|a" }

/-- An interface record giving node `n2` the interfaces `eth0` and `eth1`. -/
def ifsTwo : List (String × List String) := [("n2", ["eth0", "eth1"])]

/-- A `tc_clear` entry currently selecting interface `eth1`, which is also a
member of the interface list of node `n2`. -/
def fcKeepIface : FaultConfig :=
  { defaultFaultConfig "c6" with
    fault_type := "tc_clear", target_node := "n1", target_interface := "eth1" }

/-- An interface record giving node `n1` the single interface `e0`. -/
def ifsOne : List (String × List String) := [("n1", ["e0"])]

/-- An `add_latency` entry with populated latency and jitter parameters. -/
def fcC4 : FaultConfig :=
  { defaultFaultConfig "c4" with
    fault_type := "add_latency", latency_ms := JVal.num 250, jitter_ms := JVal.num 7 }

/-- A `node_stop` entry with a populated target node and interface. -/
def fcNodeStop : FaultConfig :=
  { defaultFaultConfig "c2a" with
    fault_type := "node_stop", target_node := "r1", target_interface := "eth1" }

/-- A `routing_loop_timed` entry with a populated target node and interface. -/
def fcLoop : FaultConfig :=
  { defaultFaultConfig "c2b" with
    fault_type := "routing_loop_timed", target_node := "r1", target_interface := "eth1" }

/-- An `add_latency` entry with populated target fields. -/
def fcAddLat : FaultConfig :=
  { defaultFaultConfig "w2" with
    fault_type := "add_latency", target_node := "r1", target_interface := "eth1" }

/-- A `routing_loop_timed` entry whose optional parameters are all falsy. -/
def fcAllFalsy : FaultConfig :=
  { defaultFaultConfig "w9" with
    fault_type := "routing_loop_timed"
    jitter_ms := JVal.num 0
    correlation_percent := JVal.str ""
    loop_ping_count := JVal.num 0
    bandwidth_burst_bytes := JVal.str ""
    bandwidth_latency_ms := JVal.str ""
    loop_ping_target_ip := "" }

/-- A small two-node topology with one link and one interface on `r1`. -/
def topoSeed : TopologyData := ⟨["r1", "r2"], [("r1", "r2")], [("r1", ["eth1"])]⟩

/-- A default entry with id `a`. -/
def fcA : FaultConfig := defaultFaultConfig "a"

/-- A default entry with id `b`. -/
def fcB : FaultConfig := defaultFaultConfig "b"

/-- A successful per-item result. -/
def dmOk : DetailedMessage := ⟨"link_down", "success", "ok", "r1"⟩

/-- A response carrying a single per-item result. -/
def respShort : SubmitResponse := ⟨"partial", "warning", some [dmOk]⟩

theorem ifaceFetch_mem (l : List String) (ti : String) :
    (if 0 < l.length ∧ (ti = "" ∨ ti ∉ l) then headOrEmpty l
      else if l.length = 0 then "" else ti) = "" ∨
    (if 0 < l.length ∧ (ti = "" ∨ ti ∉ l) then headOrEmpty l
      else if l.length = 0 then "" else ti) ∈ l := by
  by_cases h1 : 0 < l.length ∧ (ti = "" ∨ ti ∉ l)
  · right
    rw [if_pos h1]
    cases l with
    | nil => simp at h1
    | cons a as => simp [headOrEmpty]
  · rw [if_neg h1]
    by_cases h2 : l.length = 0
    · left; rw [if_pos h2]
    · right
      rw [if_neg h2]
      push_neg at h1
      exact (h1 (Nat.pos_of_ne_zero h2)).2

theorem ifaceChange_mem (l : List String) (ti : String) :
    (if 0 < l.length ∧ (ti = "" ∨ ti ∉ l) then headOrEmpty l
      else if l.length = 0 ∧ ti ≠ "" then "" else ti) = "" ∨
    (if 0 < l.length ∧ (ti = "" ∨ ti ∉ l) then headOrEmpty l
      else if l.length = 0 ∧ ti ≠ "" then "" else ti) ∈ l := by
  by_cases h1 : 0 < l.length ∧ (ti = "" ∨ ti ∉ l)
  · right
    rw [if_pos h1]
    cases l with
    | nil => simp at h1
    | cons a as => simp [headOrEmpty]
  · rw [if_neg h1]
    by_cases h2 : l.length = 0 ∧ ti ≠ ""
    · left; rw [if_pos h2]
    · rw [if_neg h2]
      push_neg at h1
      push_neg at h2
      by_cases h3 : l.length = 0
      · left; exact h2 h3
      · right
        exact (h1 (Nat.pos_of_ne_zero h3)).2

/-- C1 (amended): after re-resolution against a topology `t` (both on a
successful fetch and on the topology-change effect), the target interface
is the empty sentinel or a member of the interface list of the resolved
target node; the target node is replaced by the first node of `t` only
when it was empty, and is otherwise kept verbatim (even when it is absent
from the nodes of `t`); the target link likewise is defaulted to the first
link of `t` only when it was empty and is otherwise kept verbatim. -/
theorem claim1_resolution_behavior (t : TopologyData) (fc : FaultConfig) :
    ((resolveOnFetch t fc).target_interface = "" ∨
      (resolveOnFetch t fc).target_interface ∈
        lookupIfs t.interfaces_by_container (resolveOnFetch t fc).target_node) ∧
    (resolveOnFetch t fc).target_node
      = (if fc.target_node = "" then firstContainer t else fc.target_node) ∧
    (resolveOnFetch t fc).target_link
      = (if fc.target_link = "" then firstLinkStr t else fc.target_link) ∧
    ((resolveOnChangeEntry t fc).target_interface = "" ∨
      (resolveOnChangeEntry t fc).target_interface ∈
        lookupIfs t.interfaces_by_container (resolveOnChangeEntry t fc).target_node) ∧
    (resolveOnChangeEntry t fc).target_node
      = (if fc.target_node = "" then firstContainer t else fc.target_node) ∧
    (resolveOnChangeEntry t fc).target_link
      = (if fc.target_link = "" then firstLinkStr t else fc.target_link) :=
  ⟨ifaceFetch_mem
      (lookupIfs t.interfaces_by_container (updateOrDefault fc.target_node (firstContainer t)))
      fc.target_interface,
    rfl, rfl,
    ifaceChange_mem
      (lookupIfs t.interfaces_by_container (updateOrDefault fc.target_node (firstContainer t)))
      fc.target_interface,
    rfl, rfl⟩

/-- C1 counterexample: against the topology with the single node `r1`, an
entry targeting the vanished node `r2` and the vanished link `x|y` keeps
both stale references after re-resolution; `r2` is neither a member of the
node set nor the empty sentinel, and it is not replaced by the first node. -/
theorem claim1_counterexample :
    (resolveOnFetch topoR1 fcStaleNode).target_node = "r2" ∧
    "r2" ∉ topoR1.containers ∧ ("r2" : String) ≠ "" ∧ firstContainer topoR1 = "r1" ∧
    (resolveOnFetch topoR1 fcStaleNode).target_link = "x|y" ∧ topoR1.links = [] := by
  decide

/-- C4 (amended): changing the kind of a committed entry updates only the
kind field; every other field, including parameters irrelevant for the new
kind, keeps its previous value in the committed entry (irrelevant
parameter families are excluded only at serialization time). -/
theorem claim4_kind_change_preserves_fields (m : List (String × List String))
    (v : String) (fc : FaultConfig) :
    handleFaultConfigChange m (FieldUpdate.fault_type v) fc = { fc with fault_type := v } :=
  rfl

/-- C4 counterexample: switching an `add_latency` entry carrying
`latency_ms = 250` and `jitter_ms = 7` to `tc_clear` leaves both values in
the committed entry, instead of clearing them to their defaults. -/
theorem claim4_counterexample :
    (handleFaultConfigChange [] (FieldUpdate.fault_type "tc_clear") fcC4).fault_type
      = "tc_clear" ∧
    (handleFaultConfigChange [] (FieldUpdate.fault_type "tc_clear") fcC4).jitter_ms
      = JVal.num 7 ∧
    (handleFaultConfigChange [] (FieldUpdate.fault_type "tc_clear") fcC4).latency_ms
      = JVal.num 250 ∧
    (defaultFaultConfig "c4").jitter_ms = JVal.str "" := by
  decide

/-- C6 (amended): for an entry whose kind is not `routing_loop_timed`,
editing the target node to `v` always overwrites the target interface with
the first element of the interface list of `v` (or the empty sentinel when
that list is empty), even when the previous interface is still a member of
that list. -/
theorem claim6_node_edit_resets_interface (m : List (String × List String)) (v : String)
    (fc : FaultConfig) (h : fc.fault_type ≠ "routing_loop_timed") :
    (handleFaultConfigChange m (FieldUpdate.target_node v) fc).target_node = v ∧
    (handleFaultConfigChange m (FieldUpdate.target_node v) fc).target_interface
      = headOrEmpty (lookupIfs m v) := by
  simp [handleFaultConfigChange, setField, h]

/-- C6 witness: editing the target node of a default `link_down` entry to
`n1` sets the target interface to `e0`, the first interface of `n1`. -/
theorem claim6_witness :
    (handleFaultConfigChange ifsOne (FieldUpdate.target_node "n1")
        (defaultFaultConfig "w6")).target_interface = "e0" :=
  (claim6_node_edit_resets_interface ifsOne "n1" (defaultFaultConfig "w6") (by decide)).2

/-- C6 counterexample: the entry currently selects `eth1`, which is a member
of the interface list of the new node `n2`; the claim requires it to be
preserved, but the edit resets it to the first list element `eth0`. -/
theorem claim6_counterexample :
    "eth1" ∈ lookupIfs ifsTwo "n2" ∧
    fcKeepIface.target_interface = "eth1" ∧
    fcKeepIface.fault_type ≠ "routing_loop_timed" ∧
    (handleFaultConfigChange ifsTwo (FieldUpdate.target_node "n2") fcKeepIface).target_interface
      = "eth0" := by
  decide

/-- C7 (amended): for a `link_down` or `link_up` entry whose target node is
unset, re-resolution and seeding default the target node to the first node
of the topology in discovery order, not to the first endpoint of the
selected link. -/
theorem claim7_link_node_default (t : TopologyData) (fc : FaultConfig) (newId : String)
    (h1 : fc.fault_type = "link_down" ∨ fc.fault_type = "link_up")
    (h2 : fc.target_node = "") :
    (resolveOnChangeEntry t fc).target_node = firstContainer t ∧
    (seedEntry t newId).target_node = firstContainer t := by
  constructor
  · show updateOrDefault fc.target_node (firstContainer t) = firstContainer t
    rw [h2]
    rfl
  · rfl

/-- C7 witness: in `topoAB`, a `link_down` entry with an unset target node is
resolved to node `a`, the first discovered node, and a seeded entry also
receives node `a`. -/
theorem claim7_witness :
    (resolveOnChangeEntry topoAB fcLinkUnsetNode).target_node = firstContainer topoAB ∧
    (seedEntry topoAB "w7").target_node = firstContainer topoAB :=
  claim7_link_node_default topoAB fcLinkUnsetNode "w7" (Or.inl (by decide)) (by decide)

/-- C7 counterexample: the selected link of the entry is `b|a`, whose first
endpoint is `b`, yet resolution sets the unset target node to `a`, the
first node of the topology, not to the first endpoint of the link. -/
theorem claim7_counterexample :
    fcLinkUnsetNode.fault_type = "link_down" ∧
    fcLinkUnsetNode.target_node = "" ∧
    fcLinkUnsetNode.target_link = "b|a" ∧
    topoAB.links = [("b", "a")] ∧
    (resolveOnChangeEntry topoAB fcLinkUnsetNode).target_node = "a" ∧
    ("a" : String) ≠ "b" := by
  decide

theorem filter_ne_id_length (idR : String) :
    ∀ l : List FaultConfig, (l.map FaultConfig.id).Nodup → idR ∈ l.map FaultConfig.id →
      (l.filter (fun fc => fc.id != idR)).length = l.length - 1 := by
  intro l
  induction l with
  | nil => intro _ hmem; simp at hmem
  | cons a as ih =>
    intro hnd hmem
    rw [List.map_cons, List.nodup_cons] at hnd
    obtain ⟨ha, hnd⟩ := hnd
    rw [List.map_cons, List.mem_cons] at hmem
    rcases hmem with h | h
    · have hdrop : (a.id != idR) = false := by simp [h]
      rw [List.filter_cons, hdrop]
      have hall : as.filter (fun fc => fc.id != idR) = as := by
        rw [List.filter_eq_self]
        intro fc hfc
        have : fc.id ∈ as.map FaultConfig.id := List.mem_map_of_mem FaultConfig.id hfc
        have hne : fc.id ≠ a.id := fun he => ha (he ▸ this)
        simp [h, hne]
      rw [hall]
      simp
    · have hane : (a.id != idR) = true := by
        have : a.id ≠ idR := fun he => ha (he ▸ h)
        simp [this]
      rw [List.filter_cons, hane]
      simp only [if_true, cond_true, List.length_cons]
      rw [ih hnd h]
      have hpos : 0 < as.length := by
        cases as with
        | nil => simp at h
        | cons b bs => simp
      omega

/-- C3: removing an entry from a non-empty fault-config set with distinct
ids never yields an empty set; the result has size `max (n - 1) 1`, and
when the removed entry was the only one, the result is exactly one fresh
default entry seeded from the current topology under the fresh id. -/
theorem claim3_remove_never_empty (t : TopologyData) (newId idToRemove : String)
    (configs : List FaultConfig) (hne : configs ≠ [])
    (hnd : (configs.map FaultConfig.id).Nodup)
    (hmem : idToRemove ∈ configs.map FaultConfig.id) :
    handleRemoveFaultConfig t newId idToRemove configs ≠ [] ∧
    (handleRemoveFaultConfig t newId idToRemove configs).length
      = max (configs.length - 1) 1 ∧
    (configs.length = 1 →
      handleRemoveFaultConfig t newId idToRemove configs = [seedEntry t newId]) := by
  have hlen := filter_ne_id_length idToRemove configs hnd hmem
  have hcpos : 0 < configs.length := by
    cases configs with
    | nil => exact absurd rfl hne
    | cons a as => simp
  unfold handleRemoveFaultConfig
  by_cases h0 : (configs.filter (fun fc => fc.id != idToRemove)).length = 0
  · rw [if_pos h0]
    refine ⟨by simp, ?_, fun _ => rfl⟩
    have : configs.length - 1 = 0 := by omega
    rw [this]
    simp
  · rw [if_neg h0]
    refine ⟨?_, ?_, ?_⟩
    · intro hnil
      exact h0 (by rw [hnil]; rfl)
    · rw [hlen]
      have h2 : 1 ≤ configs.length - 1 := by omega
      omega
    · intro h1
      exfalso
      omega

/-- C3 witness: removing the only entry of a singleton set yields exactly
the one fresh seeded entry, hence a set of size `max 0 1 = 1`, not zero. -/
theorem claim3_witness :
    handleRemoveFaultConfig topoSeed "fresh" "a" [fcA] ≠ [] ∧
    handleRemoveFaultConfig topoSeed "fresh" "a" [fcA] = [seedEntry topoSeed "fresh"] :=
  ⟨(claim3_remove_never_empty topoSeed "fresh" "a" [fcA] (by decide) (by decide)
      (by decide)).1,
    (claim3_remove_never_empty topoSeed "fresh" "a" [fcA] (by decide) (by decide)
      (by decide)).2.2 rfl⟩

/-- C5 (amended): the number of displayed per-item results equals the
number of result items carried by the response, independently of the
number of submitted entries; a response carrying fewer items than entries
displays only those items (in response order), with the unmatched trailing
entries silently dropped rather than shown as unknown. -/
theorem claim5_display_counts (configsSubmitted : List FaultConfig) (r : SubmitResponse)
    (ds : List DetailedMessage) (h : r.details = some ds) :
    (displayedRows r).length = ds.length ∧
    ((displayedRows r).length = configsSubmitted.length ↔
      ds.length = configsSubmitted.length) := by
  constructor
  · simp [displayedRows, displayedResults, h]
  · simp [displayedRows, displayedResults, h]

/-- C5 witness: a response with one result item yields one displayed row. -/
theorem claim5_witness : (displayedRows respShort).length = 1 :=
  (claim5_display_counts [fcA, fcB] respShort [dmOk] rfl).1

/-- C5 counterexample: two entries are submitted (two wire payloads), yet a
response carrying a single result item produces exactly one displayed
result row, not two rows with a trailing unknown marker. -/
theorem claim5_counterexample :
    (payloadsToSubmit [fcA, fcB]).length = 2 ∧
    displayedRows respShort = [renderRow dmOk] ∧
    (displayedRows respShort).length = 1 := by
  refine ⟨rfl, rfl, rfl⟩

/-- C8: when the discovery fetch fails, the topology snapshot is cleared
wholesale (all three in-memory pieces emptied and all three persisted
copies removed), and every fault entry keeps all of its prior field
values, since the topology-change effect does nothing on an empty
topology. -/
theorem claim8_failure_clears_and_preserves_entries (st : PageState) :
    (fetchTopologyFailure st).containers = [] ∧
    (fetchTopologyFailure st).links = [] ∧
    (fetchTopologyFailure st).interfacesByContainer = [] ∧
    (fetchTopologyFailure st).storedContainers = none ∧
    (fetchTopologyFailure st).storedLinks = none ∧
    (fetchTopologyFailure st).storedInterfaces = none ∧
    (fetchTopologyFailure st).faultConfigs = st.faultConfigs := by
  refine ⟨rfl, rfl, rfl, rfl, rfl, rfl, ?_⟩
  show topologyChangeEffect ⟨[], [], []⟩ st.faultConfigs = st.faultConfigs
  simp [topologyChangeEffect]

/-- C10: session-storage initialisation is total: a missing stored value
and an unparseable stored value both yield the supplied default, so
startup never fails on corrupted persisted topology. -/
theorem claim10_load_total {T : Type} (parse : String → Option T) (d : T) (s : String)
    (h : parse s = none) :
    getInitialState none parse d = d ∧ getInitialState (some s) parse d = d := by
  constructor
  · rfl
  · unfold getInitialState
    by_cases hs : s = "" <;> simp [hs, h]

/-- C10 witness: with a parser rejecting the stored text, both the missing
and the corrupted stored value produce the default empty node list. -/
theorem claim10_witness :
    getInitialState none (fun _ => (none : Option (List String))) [] = [] ∧
    getInitialState (some "not json") (fun _ => (none : Option (List String))) [] = [] :=
  claim10_load_total (fun _ => none) [] "not json" rfl

theorem payloadKeys_spec (fc : FaultConfig) :
    payloadKeys fc =
      ["fault_type"]
        ++ (if fc.target_node ≠ "" then ["target_node"] else [])
        ++ (if fc.target_interface ≠ "" then ["target_interface"] else [])
        ++ (if jsIncludes fc.fault_type "link_" then ["target_link"]
            else if fc.fault_type = "add_latency" then
              ["latency_ms"] ++ (if fc.jitter_ms.truthy then ["jitter_ms"] else [])
                ++ (if fc.correlation_percent.truthy then ["correlation_percent"] else [])
            else if fc.fault_type = "limit_bandwidth" then
              ["bandwidth_rate_kbit"]
                ++ (if fc.bandwidth_burst_bytes.truthy then ["bandwidth_burst_bytes"] else [])
                ++ (if fc.bandwidth_latency_ms.truthy then ["bandwidth_latency_ms"] else [])
            else if fc.fault_type = "routing_loop_timed" then
              ["loop_node1", "loop_node2", "loop_dummy_dest_ip", "loop_duration_sec"]
                ++ (if fc.loop_ping_target_ip ≠ "" then ["loop_ping_target_ip"] else [])
                ++ (if fc.loop_ping_count.truthy then ["loop_ping_count"] else [])
            else []) := by
  unfold payloadKeys buildSinglePayload
  split_ifs <;> simp

theorem mem_payloadKeys (fc : FaultConfig) (x : String) :
    x ∈ payloadKeys fc ↔
      x = "fault_type"
      ∨ (x = "target_node" ∧ fc.target_node ≠ "")
      ∨ (x = "target_interface" ∧ fc.target_interface ≠ "")
      ∨ (jsIncludes fc.fault_type "link_" = true ∧ x = "target_link")
      ∨ (jsIncludes fc.fault_type "link_" = false ∧ fc.fault_type = "add_latency" ∧
          (x = "latency_ms" ∨ (x = "jitter_ms" ∧ fc.jitter_ms.truthy = true)
            ∨ (x = "correlation_percent" ∧ fc.correlation_percent.truthy = true)))
      ∨ (jsIncludes fc.fault_type "link_" = false ∧ fc.fault_type = "limit_bandwidth" ∧
          (x = "bandwidth_rate_kbit"
            ∨ (x = "bandwidth_burst_bytes" ∧ fc.bandwidth_burst_bytes.truthy = true)
            ∨ (x = "bandwidth_latency_ms" ∧ fc.bandwidth_latency_ms.truthy = true)))
      ∨ (jsIncludes fc.fault_type "link_" = false ∧ fc.fault_type = "routing_loop_timed" ∧
          (x = "loop_node1" ∨ x = "loop_node2" ∨ x = "loop_dummy_dest_ip"
            ∨ x = "loop_duration_sec"
            ∨ (x = "loop_ping_target_ip" ∧ fc.loop_ping_target_ip ≠ "")
            ∨ (x = "loop_ping_count" ∧ fc.loop_ping_count.truthy = true))) := by
  rw [payloadKeys_spec]
  split_ifs <;> simp_all

/-- C2 (amended): each wire payload contains the kind, the target node and
the target interface whenever the latter two are non-empty regardless of
kind (so node lifecycle payloads do carry a populated target interface and
`routing_loop_timed` payloads do carry a populated target node), while the
kind-specific parameter families appear only for their own kind. -/
theorem claim2_payload_fields (fc : FaultConfig) :
    ("target_node" ∈ payloadKeys fc ↔ fc.target_node ≠ "") ∧
    ("target_interface" ∈ payloadKeys fc ↔ fc.target_interface ≠ "") ∧
    ("latency_ms" ∈ payloadKeys fc → fc.fault_type = "add_latency") ∧
    ("jitter_ms" ∈ payloadKeys fc → fc.fault_type = "add_latency") ∧
    ("correlation_percent" ∈ payloadKeys fc → fc.fault_type = "add_latency") ∧
    ("bandwidth_rate_kbit" ∈ payloadKeys fc → fc.fault_type = "limit_bandwidth") ∧
    ("bandwidth_burst_bytes" ∈ payloadKeys fc → fc.fault_type = "limit_bandwidth") ∧
    ("bandwidth_latency_ms" ∈ payloadKeys fc → fc.fault_type = "limit_bandwidth") ∧
    ("loop_node1" ∈ payloadKeys fc → fc.fault_type = "routing_loop_timed") ∧
    ("loop_duration_sec" ∈ payloadKeys fc → fc.fault_type = "routing_loop_timed") ∧
    ("loop_ping_count" ∈ payloadKeys fc → fc.fault_type = "routing_loop_timed") ∧
    ("target_link" ∈ payloadKeys fc → jsIncludes fc.fault_type "link_" = true) := by
  refine ⟨?_, ?_, ?_, ?_, ?_, ?_, ?_, ?_, ?_, ?_, ?_, ?_⟩ <;>
    · simp [mem_payloadKeys]
      try tauto

/-- C2 witness: a populated `add_latency` entry serialises its target
interface (non-empty) and its latency parameter, and the theorem recovers
the kind from the presence of the latency key. -/
theorem claim2_witness :
    "target_interface" ∈ payloadKeys fcAddLat ∧ fcAddLat.fault_type = "add_latency" :=
  ⟨((claim2_payload_fields fcAddLat).2.1).mpr (by decide),
    (claim2_payload_fields fcAddLat).2.2.1 (by decide)⟩

/-- C2 counterexample: a `node_stop` entry with a populated target interface
serialises the `target_interface` field, and a `routing_loop_timed` entry
with a populated target node serialises the `target_node` field, both of
which the relevance table marks as absent for those kinds. -/
theorem claim2_counterexample :
    payloadKeys fcNodeStop = ["fault_type", "target_node", "target_interface"] ∧
    "target_node" ∈ payloadKeys fcLoop ∧
    "target_interface" ∈ payloadKeys fcLoop := by
  decide

/-- C9: an optional parameter whose value is falsy (the number 0 or the
empty string) is omitted from the wire payload entirely; only truthy
optional values are serialised. -/
theorem claim9_falsy_optionals_omitted (fc : FaultConfig) :
    (fc.jitter_ms.truthy = false → "jitter_ms" ∉ payloadKeys fc) ∧
    (fc.correlation_percent.truthy = false → "correlation_percent" ∉ payloadKeys fc) ∧
    (fc.loop_ping_count.truthy = false → "loop_ping_count" ∉ payloadKeys fc) ∧
    (fc.bandwidth_burst_bytes.truthy = false → "bandwidth_burst_bytes" ∉ payloadKeys fc) ∧
    (fc.bandwidth_latency_ms.truthy = false → "bandwidth_latency_ms" ∉ payloadKeys fc) ∧
    (fc.loop_ping_target_ip = "" → "loop_ping_target_ip" ∉ payloadKeys fc) := by
  rw [payloadKeys_spec]
  refine ⟨?_, ?_, ?_, ?_, ?_, ?_⟩ <;>
    · intro hfalsy
      split_ifs <;> simp_all

/-- C9 witness: a `routing_loop_timed` entry whose jitter, correlation,
ping count, burst, latency and ping target values are all falsy omits each
of the six optional fields from its payload. -/
theorem claim9_witness :
    "jitter_ms" ∉ payloadKeys fcAllFalsy ∧
    "correlation_percent" ∉ payloadKeys fcAllFalsy ∧
    "loop_ping_count" ∉ payloadKeys fcAllFalsy ∧
    "bandwidth_burst_bytes" ∉ payloadKeys fcAllFalsy ∧
    "bandwidth_latency_ms" ∉ payloadKeys fcAllFalsy ∧
    "loop_ping_target_ip" ∉ payloadKeys fcAllFalsy :=
  ⟨(claim9_falsy_optionals_omitted fcAllFalsy).1 (by decide),
    (claim9_falsy_optionals_omitted fcAllFalsy).2.1 (by decide),
    (claim9_falsy_optionals_omitted fcAllFalsy).2.2.1 (by decide),
    (claim9_falsy_optionals_omitted fcAllFalsy).2.2.2.1 (by decide),
    (claim9_falsy_optionals_omitted fcAllFalsy).2.2.2.2.1 (by decide),
    (claim9_falsy_optionals_omitted fcAllFalsy).2.2.2.2.2 (by decide)⟩

end B4Lab
